import Mathlib

/-!
Verification of the ProCheck medical-intelligence pipeline.

This file gives a shallow embedding, in Lean 4, of the pure computational
core of the backend services:

* services/medical_knowledge_graph.py  (concept graph, traversal, scoring)
* services/medical_nlp_service.py      (entity extraction, intent, query enhancement)
* services/clinical_decision_service.py (patient risk assessment)
* services/enhanced_search_service.py  (per-hit medical relevance annotation)

Python strings are embedded as Lean strings (with most of the string
reasoning done on the underlying character lists), Python floats carrying
the small decimal weights of the knowledge tables are embedded as exact
rationals, Python dicts with fixed key sets are embedded as structures
with optional fields, and code that can raise an exception is embedded in
the Except monad.  Definitions follow the Python source line by line;
theorems at the end of the file settle the specification claims.
-/

namespace ProCheck

/-! ## Character-list primitives mirroring Python string operations -/

/-- Characters counted as whitespace by Python str.strip and the regex class
for whitespace (ASCII range). -/
def isSpaceChar (c : Char) : Bool :=
  c == ' ' || c == '\t' || c == '\n' || c == '\r' || c == '\x0b' || c == '\x0c'

/-- Characters matched by the regex word class (ASCII letters, digits and
underscore), used to decide word boundaries. -/
def isWordChar (c : Char) : Bool :=
  c.isAlphanum || c == '_'

/-- Python str.lower on the underlying character list (ASCII case folding,
which is all the embedded tables use). -/
def lowerChars (l : List Char) : List Char :=
  l.map Char.toLower

/-- Python str.strip on the underlying character list. -/
def stripChars (l : List Char) : List Char :=
  ((l.dropWhile isSpaceChar).reverse.dropWhile isSpaceChar).reverse

/-- Boolean test that the first list is a prefix of the second. -/
def isPre : List Char → List Char → Bool
  | [], _ => true
  | _ :: _, [] => false
  | a :: as, b :: bs => a == b && isPre as bs

/-- Python substring containment, needle in hay, as a scan over all start
positions. -/
def pyIn (needle hay : List Char) : Bool :=
  (List.range (hay.length + 1)).any fun i => isPre needle (hay.drop i)

/-- Python str.lower lifted back to strings. -/
def lowerS (s : String) : String :=
  ⟨lowerChars s.data⟩

/-- Python lower-then-strip normalisation used by the NLP entry point and by
concept lookup. -/
def pyLowerStrip (s : String) : String :=
  ⟨stripChars (lowerChars s.data)⟩

/-- Python substring containment on strings. -/
def pyInS (needle hay : String) : Bool :=
  pyIn needle.data hay.data

/-! ## Knowledge graph data model (medical_knowledge_graph.py) -/

/-- RelationshipType enum of medical_knowledge_graph.py. -/
inductive RelationshipType where
  | symptom_to_condition
  | condition_to_treatment
  | drug_to_condition
  | drug_to_side_effect
  | procedure_to_condition
  | contraindication
  | related_condition
  | emergency_protocol
deriving DecidableEq, BEq, Repr

/-- MedicalConcept dataclass of medical_knowledge_graph.py. -/
structure MedicalConcept where
  id : String
  name : String
  concept_type : String
  description : Option String := none
  aliases : List String := []
  severity : Option String := none
  category : Option String := none
deriving DecidableEq, Repr

/-- MedicalRelationship dataclass of medical_knowledge_graph.py; the float
strength is embedded as an exact rational. -/
structure MedicalRelationship where
  source : String
  target : String
  relationship_type : RelationshipType
  strength : ℚ
  evidence_level : String
  description : Option String := none
deriving DecidableEq, Repr

def chest_pain_concept : MedicalConcept :=
  { id := "chest_pain", name := "chest pain", concept_type := "symptom",
    aliases := ["chest discomfort", "chest pressure", "angina"],
    severity := some "high", category := some "cardiovascular" }

def shortness_of_breath_concept : MedicalConcept :=
  { id := "shortness_of_breath", name := "shortness of breath", concept_type := "symptom",
    aliases := ["dyspnea", "difficulty breathing", "breathlessness"],
    severity := some "high", category := some "respiratory" }

def heart_attack_concept : MedicalConcept :=
  { id := "heart_attack", name := "heart attack", concept_type := "condition",
    aliases := ["myocardial infarction", "MI", "acute coronary syndrome"],
    severity := some "critical", category := some "cardiovascular" }

def cardiac_arrest_concept : MedicalConcept :=
  { id := "cardiac_arrest", name := "cardiac arrest", concept_type := "condition",
    aliases := ["sudden cardiac arrest", "SCA"],
    severity := some "critical", category := some "cardiovascular" }

def hypertension_concept : MedicalConcept :=
  { id := "hypertension", name := "hypertension", concept_type := "condition",
    aliases := ["high blood pressure", "HTN"],
    severity := some "medium", category := some "cardiovascular" }

def asthma_concept : MedicalConcept :=
  { id := "asthma", name := "asthma", concept_type := "condition",
    aliases := ["bronchial asthma", "reactive airway disease"],
    severity := some "medium", category := some "respiratory" }

def pneumonia_concept : MedicalConcept :=
  { id := "pneumonia", name := "pneumonia", concept_type := "condition",
    aliases := ["lung infection", "pulmonary infection"],
    severity := some "high", category := some "respiratory" }

def respiratory_failure_concept : MedicalConcept :=
  { id := "respiratory_failure", name := "respiratory failure", concept_type := "condition",
    aliases := ["respiratory arrest", "breathing failure"],
    severity := some "critical", category := some "respiratory" }

def cpr_concept : MedicalConcept :=
  { id := "cpr", name := "CPR", concept_type := "procedure",
    aliases := ["cardiopulmonary resuscitation", "chest compressions"],
    severity := some "critical", category := some "emergency" }

def defibrillation_concept : MedicalConcept :=
  { id := "defibrillation", name := "defibrillation", concept_type := "procedure",
    aliases := ["defibrillator", "shock therapy"],
    severity := some "critical", category := some "emergency" }

def intubation_concept : MedicalConcept :=
  { id := "intubation", name := "intubation", concept_type := "procedure",
    aliases := ["endotracheal intubation", "ET tube"],
    severity := some "high", category := some "respiratory" }

def aspirin_concept : MedicalConcept :=
  { id := "aspirin", name := "aspirin", concept_type := "drug",
    aliases := ["acetylsalicylic acid", "ASA"],
    severity := some "medium", category := some "cardiovascular" }

def epinephrine_concept : MedicalConcept :=
  { id := "epinephrine", name := "epinephrine", concept_type := "drug",
    aliases := ["adrenaline", "EpiPen"],
    severity := some "high", category := some "emergency" }

def morphine_concept : MedicalConcept :=
  { id := "morphine", name := "morphine", concept_type := "drug",
    aliases := ["morphine sulfate", "opioid"],
    severity := some "high", category := some "pain_management" }

def penicillin_concept : MedicalConcept :=
  { id := "penicillin", name := "penicillin", concept_type := "drug",
    aliases := ["penicillin G", "benzylpenicillin"],
    severity := some "medium", category := some "antibiotic" }

def fever_concept : MedicalConcept :=
  { id := "fever", name := "fever", concept_type := "symptom",
    aliases := ["pyrexia", "elevated temperature"],
    severity := some "medium", category := some "general" }

def diabetes_concept : MedicalConcept :=
  { id := "diabetes", name := "diabetes", concept_type := "condition",
    aliases := ["diabetes mellitus", "DM", "high blood sugar"],
    severity := some "high", category := some "endocrine" }

def sepsis_concept : MedicalConcept :=
  { id := "sepsis", name := "sepsis", concept_type := "condition",
    aliases := ["blood infection", "systemic infection"],
    severity := some "critical", category := some "infectious" }

def stroke_concept : MedicalConcept :=
  { id := "stroke", name := "stroke", concept_type := "condition",
    aliases := ["cerebrovascular accident", "CVA", "brain attack"],
    severity := some "critical", category := some "neurological" }

/-- Concept table in insertion order, as built by _build_knowledge_base. -/
def concepts_list : List MedicalConcept :=
  [chest_pain_concept, shortness_of_breath_concept, heart_attack_concept,
   cardiac_arrest_concept, hypertension_concept, asthma_concept, pneumonia_concept,
   respiratory_failure_concept, cpr_concept, defibrillation_concept,
   intubation_concept, aspirin_concept, epinephrine_concept, morphine_concept,
   penicillin_concept, fever_concept, diabetes_concept, sepsis_concept,
   stroke_concept]

/-- Dict lookup self.concepts.get(concept_id): concept ids are unique, so the
insertion-order association is a first-match scan. -/
def conceptsGet (concept_id : String) : Option MedicalConcept :=
  concepts_list.find? fun c => c.id == concept_id

/-- Construction helper matching the MedicalRelationship rows of
_build_knowledge_base. -/
def mkRel (source target : String) (t : RelationshipType) (strength : ℚ)
    (evidence : String) : MedicalRelationship :=
  { source := source, target := target, relationship_type := t,
    strength := strength, evidence_level := evidence }

/-- Relationship of the seed table from diabetes to heart_attack (strength
exactly 0.5), used for the boundary-inclusion claim. -/
def diabetes_heart_attack_rel : MedicalRelationship :=
  mkRel "diabetes" "heart_attack" .related_condition (1/2) "medium"

/-- Relationship table in insertion order, as built by _build_knowledge_base. -/
def relationships_list : List MedicalRelationship :=
  [mkRel "chest_pain" "heart_attack" .symptom_to_condition (9/10) "high",
   mkRel "chest_pain" "asthma" .symptom_to_condition (6/10) "medium",
   mkRel "shortness_of_breath" "heart_attack" .symptom_to_condition (8/10) "high",
   mkRel "shortness_of_breath" "asthma" .symptom_to_condition (9/10) "high",
   mkRel "shortness_of_breath" "pneumonia" .symptom_to_condition (8/10) "high",
   mkRel "fever" "pneumonia" .symptom_to_condition (7/10) "medium",
   mkRel "fever" "sepsis" .symptom_to_condition (8/10) "high",
   mkRel "heart_attack" "aspirin" .condition_to_treatment (9/10) "high",
   mkRel "cardiac_arrest" "cpr" .condition_to_treatment 1 "high",
   mkRel "cardiac_arrest" "defibrillation" .condition_to_treatment (9/10) "high",
   mkRel "asthma" "epinephrine" .condition_to_treatment (8/10) "high",
   mkRel "respiratory_failure" "intubation" .condition_to_treatment (9/10) "high",
   mkRel "aspirin" "heart_attack" .drug_to_condition (9/10) "high",
   mkRel "epinephrine" "cardiac_arrest" .drug_to_condition (8/10) "high",
   mkRel "morphine" "chest_pain" .drug_to_condition (7/10) "medium",
   mkRel "penicillin" "penicillin_allergy" .contraindication 1 "high",
   mkRel "aspirin" "bleeding_disorder" .contraindication (8/10) "high",
   mkRel "heart_attack" "cardiac_arrest" .related_condition (7/10) "medium",
   mkRel "hypertension" "heart_attack" .related_condition (6/10) "medium",
   diabetes_heart_attack_rel,
   mkRel "cardiac_arrest" "emergency_protocol" .emergency_protocol 1 "high",
   mkRel "stroke" "emergency_protocol" .emergency_protocol 1 "high",
   mkRel "sepsis" "emergency_protocol" .emergency_protocol 1 "high"]

/-! ## Knowledge graph operations -/

/-- find_concept: first concept whose name or one of whose aliases equals the
lower-cased, stripped input. -/
def find_concept (name : String) : Option MedicalConcept :=
  let name_lower := pyLowerStrip name
  concepts_list.find? fun c =>
    lowerS c.name == name_lower || c.aliases.any fun al => lowerS al == name_lower

/-- Python test "if relationship_types and relationship.relationship_type not in
relationship_types": the filter is active only for a truthy (non-empty) list. -/
def typeFilterRejects : Option (List RelationshipType) → RelationshipType → Bool
  | none, _ => false
  | some ts, t => !ts.isEmpty && !ts.contains t

/-- get_related_concepts: scan relationships touching the concept id, filter by
minimum strength and optional type allow-list, then stable-sort descending by
strength (Python list.sort with key and reverse=True is stable, matched here by
insertion sort with the corresponding total preorder). -/
def get_related_concepts (concept_id : String)
    (relationship_types : Option (List RelationshipType) := none)
    (min_strength : ℚ := 1/2) : List (MedicalConcept × MedicalRelationship) :=
  let related := relationships_list.filterMap fun rel =>
    if rel.strength < min_strength then none
    else if typeFilterRejects relationship_types rel.relationship_type then none
    else if rel.source == concept_id then
      (conceptsGet rel.target).map fun c => (c, rel)
    else if rel.target == concept_id then
      (conceptsGet rel.source).map fun c => (c, rel)
    else none
  List.insertionSort (fun x y => y.2.strength ≤ x.2.strength) related

/-- Dict write diagnosis_scores[key] += v with insertion-order preservation:
update the entry in place when the key is present, else append at the end. -/
def dictAddScore : List (String × ℚ) → String → ℚ → List (String × ℚ)
  | [], k, v => [(k, v)]
  | kv :: d, k, v =>
    if kv.1 == k then (kv.1, kv.2 + v) :: d else kv :: dictAddScore d k v

/-- Loop body of get_differential_diagnosis for one symptom: resolve the
concept and accumulate the strengths of its condition-typed
symptom_to_condition related pairs. -/
def diagStep (d : List (String × ℚ)) (s : String) : List (String × ℚ) :=
  match find_concept s with
  | none => d
  | some concept =>
    (get_related_concepts concept.id (some [.symptom_to_condition])).foldl
      (fun d' p =>
        if p.1.concept_type == "condition" then dictAddScore d' p.1.id p.2.strength
        else d') d

/-- get_differential_diagnosis: per symptom, resolve the concept, fetch its
symptom_to_condition related pairs, accumulate strengths per condition id, then
look each id back up and sort descending by accumulated score. -/
def get_differential_diagnosis (symptoms : List String) : List (MedicalConcept × ℚ) :=
  let diagnosis_scores := symptoms.foldl diagStep []
  let diagnoses := diagnosis_scores.filterMap fun kv =>
    (conceptsGet kv.1).map fun c => (c, kv.2)
  List.insertionSort (fun x y => y.2 ≤ x.2) diagnoses

/-- get_treatment_recommendations from the source, for completeness. -/
def get_treatment_recommendations (condition : String) :
    List (MedicalConcept × MedicalRelationship) :=
  match find_concept condition with
  | none => []
  | some concept =>
    get_related_concepts concept.id (some [.condition_to_treatment, .drug_to_condition])

/-- get_contraindications: resolve the drug name and fetch contraindication
related pairs. -/
def get_contraindications (drug : String) : List (MedicalConcept × MedicalRelationship) :=
  match find_concept drug with
  | none => []
  | some concept => get_related_concepts concept.id (some [.contraindication])

/-- is_emergency: critical severity or at least one emergency_protocol edge. -/
def is_emergency (condition : String) : Bool :=
  match find_concept condition with
  | none => false
  | some concept =>
    if concept.severity == some "critical" then true
    else !(get_related_concepts concept.id (some [.emergency_protocol])).isEmpty

/-- Entity dict {"text": ..., "type": ...} consumed by get_medical_context;
only the text key is read, with default "". -/
structure EntityDict where
  text : Option String := none
  etype : Option String := none
deriving DecidableEq, Repr

/-- Aggregate context dict returned by get_medical_context. -/
structure MedicalContextResult where
  primary_conditions : List MedicalConcept := []
  symptoms : List MedicalConcept := []
  treatments : List MedicalConcept := []
  drugs : List MedicalConcept := []
  emergency_indicators : List MedicalConcept := []
  contraindications : List MedicalConcept := []
  related_conditions : List MedicalConcept := []
  differential_diagnosis : List (MedicalConcept × ℚ) := []
deriving DecidableEq, Repr

/-- Loop body of get_medical_context: categorise one resolved entity text into
the context buckets. -/
def mcStep (ctx : MedicalContextResult) (t : String) : MedicalContextResult :=
  match find_concept t with
  | none => ctx
  | some concept =>
    if concept.concept_type == "symptom" then
      { ctx with symptoms := ctx.symptoms ++ [concept] }
    else if concept.concept_type == "condition" then
      let ctx' := { ctx with primary_conditions := ctx.primary_conditions ++ [concept] }
      if is_emergency concept.id then
        { ctx' with emergency_indicators := ctx'.emergency_indicators ++ [concept] }
      else ctx'
    else if concept.concept_type == "drug" then
      let ctx' := { ctx with drugs := ctx.drugs ++ [concept] }
      { ctx' with contraindications :=
          ctx'.contraindications ++ (get_contraindications concept.id).map Prod.fst }
    else if concept.concept_type == "procedure" then
      { ctx with treatments := ctx.treatments ++ [concept] }
    else ctx

/-- get_medical_context: bucket resolved concepts by type, collect
contraindication targets for drugs, then differential diagnosis (top 5) and
related conditions (top 3 per condition). -/
def get_medical_context (query_entities : List EntityDict) : MedicalContextResult :=
  let entity_texts := query_entities.map fun e => lowerS (e.text.getD "")
  let ctx1 := entity_texts.foldl mcStep {}
  let ctx2 :=
    if !ctx1.symptoms.isEmpty then
      { ctx1 with differential_diagnosis :=
          (get_differential_diagnosis (ctx1.symptoms.map (·.name))).take 5 }
    else ctx1
  { ctx2 with related_conditions :=
      ctx2.related_conditions ++ ctx2.primary_conditions.flatMap fun condition =>
        ((get_related_concepts condition.id (some [.related_condition])).take 3).map Prod.fst }

/-! ## Medical NLP service (medical_nlp_service.py)

The pattern tables of the source are regular expressions of two shapes only:
a word-boundary-delimited alternation of literal words, and two such
alternation groups joined by one-or-more whitespace.  The embedding models
exactly these two shapes, with the scanning behaviour of re.finditer
(leftmost match, ordered alternatives, continue after the end of a match)
and re.search (existence of a match). -/

/-- MedicalIntent enum of medical_nlp_service.py. -/
inductive MedicalIntent where
  | symptom_based
  | procedure_based
  | drug_based
  | condition_based
  | emergency
  | general
deriving DecidableEq, BEq, Repr

/-- MedicalEntity dataclass of medical_nlp_service.py. -/
structure MedicalEntity where
  text : String
  entity_type : String
  confidence : ℚ
  start_pos : Nat
  end_pos : Nat
deriving DecidableEq, Repr

/-- Medical context dict produced by _extract_medical_context: a fixed key set
with optional age and gender and always-set urgency and setting. -/
structure MedicalQueryContext where
  age : Option Nat := none
  gender : Option String := none
  urgency : Option String := none
  setting : Option String := none
deriving DecidableEq, Repr

/-- QueryAnalysis dataclass of medical_nlp_service.py. -/
structure QueryAnalysis where
  original_query : String
  intent : MedicalIntent
  entities : List MedicalEntity
  enhanced_query : String
  suggestions : List String
  medical_context : MedicalQueryContext
deriving DecidableEq, Repr

/-- Shapes of the regular expressions used by the NLP service: either a
boundary-delimited alternation of literal words, or two alternation groups
joined by mandatory whitespace, boundary-delimited at the outside. -/
inductive MedPattern where
  | alts (words : List String)
  | twoGroup (g1 : List String) (g2 : List String)
deriving Repr

/-- Word boundary on the left of position i: start of text or a non-word
character before (all table literals begin with a word character). -/
def boundaryBefore (q : List Char) (i : Nat) : Bool :=
  i == 0 || !isWordChar (q.getD (i - 1) ' ')

/-- Word boundary on the right of position j: end of text or a non-word
character at j (all table literals end with a word character). -/
def boundaryAfter (q : List Char) (j : Nat) : Bool :=
  j == q.length || !isWordChar (q.getD j ' ')

/-- Literal match at a fixed position. -/
def litAt (w : List Char) (q : List Char) (i : Nat) : Bool :=
  isPre w (q.drop i)

/-- Length of the whitespace run starting at position j. -/
def spaceRunLen (q : List Char) (j : Nat) : Nat :=
  ((q.drop j).takeWhile isSpaceChar).length

/-- Match of an ordered alternation at position i, returning the match length
of the first alternative that fits with a right word boundary. -/
def matchAltsAt (words : List String) (q : List Char) (i : Nat) : Option Nat :=
  words.findSome? fun w =>
    if litAt w.data q i && boundaryAfter q (i + w.data.length) then some w.data.length
    else none

/-- Match of the two-group shape (group, one-or-more whitespace, group) at
position i; alternatives are tried in order with backtracking across the first
group, and the whitespace run is maximal (every second-group alternative starts
with a non-space character, so regex backtracking over the run cannot help). -/
def matchTwoGroupAt (g1 g2 : List String) (q : List Char) (i : Nat) : Option Nat :=
  g1.findSome? fun w1 =>
    if litAt w1.data q i then
      let j := i + w1.data.length
      let sp := spaceRunLen q j
      if sp == 0 then none
      else
        g2.findSome? fun w2 =>
          if litAt w2.data q (j + sp) && boundaryAfter q (j + sp + w2.data.length) then
            some (j + sp + w2.data.length - i)
          else none
    else none

/-- Match of a pattern at a fixed position (left boundary checked once). -/
def matchPatternAt (p : MedPattern) (q : List Char) (i : Nat) : Option Nat :=
  if !boundaryBefore q i then none
  else match p with
    | .alts ws => matchAltsAt ws q i
    | .twoGroup g1 g2 => matchTwoGroupAt g1 g2 q i

/-- re.search truthiness: some position matches. -/
def reSearch (p : MedPattern) (q : List Char) : Bool :=
  (List.range (q.length + 1)).any fun i => (matchPatternAt p q i).isSome

/-- Scanning loop of re.finditer: leftmost matches, resuming after the end of
each match; fuel bounds the scan by the text length. -/
def finditerGo (p : MedPattern) (q : List Char) : Nat → Nat → List (Nat × Nat)
  | 0, _ => []
  | fuel + 1, i =>
    if i ≥ q.length then []
    else match matchPatternAt p q i with
      | some len => (i, len) :: finditerGo p q fuel (i + len)
      | none => finditerGo p q fuel (i + 1)

/-- re.finditer over the whole text: list of (start, length) pairs. -/
def finditer (p : MedPattern) (q : List Char) : List (Nat × Nat) :=
  finditerGo p q (q.length + 1) 0

/-- symptom_patterns table. -/
def symptom_patterns : List MedPattern :=
  [.alts ["chest pain", "shortness of breath", "difficulty breathing", "wheezing",
          "coughing", "fever", "headache", "nausea", "vomiting", "dizziness",
          "fatigue", "weakness", "pain", "swelling", "rash", "bleeding",
          "confusion", "seizure", "unconsciousness"],
   .twoGroup ["acute", "chronic", "severe", "mild", "moderate", "sudden", "gradual"]
             ["pain", "symptoms", "symptom", "condition"],
   .twoGroup ["cannot", "unable to", "difficulty", "trouble"]
             ["breathe", "walk", "speak", "swallow", "see", "hear"]]

/-- condition_patterns table. -/
def condition_patterns : List MedPattern :=
  [.alts ["heart attack", "myocardial infarction", "stroke", "cerebrovascular accident",
          "pneumonia", "asthma", "diabetes", "hypertension", "sepsis", "shock",
          "cardiac arrest", "respiratory failure", "kidney failure", "liver failure"],
   .alts ["covid-19", "coronavirus", "influenza", "flu", "tuberculosis", "tb",
          "hepatitis", "hiv", "aids", "cancer", "tumor", "malignancy"],
   .twoGroup ["emergency", "critical", "life-threatening", "urgent", "acute", "chronic"]
             ["condition", "illness", "disease"]]

/-- procedure_patterns table. -/
def procedure_patterns : List MedPattern :=
  [.alts ["cpr", "cardiopulmonary resuscitation", "intubation", "ventilation",
          "defibrillation", "surgery", "operation", "procedure", "treatment",
          "therapy", "medication", "injection", "iv", "intravenous"],
   .alts ["how to", "steps to", "procedure for", "treatment for", "management of"],
   .twoGroup ["emergency", "urgent", "immediate"]
             ["treatment", "care", "intervention", "response"]]

/-- drug_patterns table (the source lists morphine and epinephrine twice; the
duplicates are kept because alternative order is semantically relevant). -/
def drug_patterns : List MedPattern :=
  [.alts ["aspirin", "morphine", "epinephrine", "adrenaline", "insulin", "penicillin",
          "amoxicillin", "paracetamol", "acetaminophen", "ibuprofen", "morphine",
          "fentanyl", "naloxone", "atropine", "lidocaine", "epinephrine"],
   .alts ["medication", "drug", "medicine", "prescription", "dose", "dosage", "mg",
          "mcg", "ml", "tablet", "capsule", "injection", "iv", "oral", "topical"],
   .alts ["contraindication", "allergy", "adverse effect", "side effect", "interaction"]]

/-- emergency_patterns table. -/
def emergency_patterns : List MedPattern :=
  [.alts ["emergency", "urgent", "critical", "life-threatening", "immediate", "stat",
          "asap", "emergency room", "er", "trauma", "cardiac arrest",
          "respiratory arrest", "sepsis", "shock", "stroke", "heart attack"],
   .alts ["911", "emergency services", "ambulance", "paramedic", "first aid",
          "emergency response"]]

/-- Synonym table medical_synonyms, in dict insertion order. -/
def medical_synonyms : List (String × List String) :=
  [("chest pain", ["chest discomfort", "chest pressure", "angina", "cardiac pain"]),
   ("heart attack", ["myocardial infarction", "mi", "acute coronary syndrome", "acs"]),
   ("stroke", ["cerebrovascular accident", "cva", "brain attack"]),
   ("cpr", ["cardiopulmonary resuscitation", "chest compressions", "rescue breathing"]),
   ("breathing", ["respiration", "ventilation", "respiratory"]),
   ("blood pressure", ["bp", "hypertension", "hypotension"]),
   ("diabetes", ["diabetes mellitus", "dm", "high blood sugar"]),
   ("covid", ["coronavirus", "sars-cov-2", "covid-19"]),
   ("flu", ["influenza", "seasonal flu"]),
   ("tb", ["tuberculosis", "pulmonary tuberculosis"]),
   ("hiv", ["human immunodeficiency virus", "aids"]),
   ("cancer", ["malignancy", "tumor", "neoplasm"]),
   ("surgery", ["operation", "procedure", "surgical intervention"]),
   ("medication", ["drug", "medicine", "pharmaceutical"]),
   ("injection", ["shot", "injection", "parenteral administration"]),
   ("iv", ["intravenous", "intravenous therapy", "iv therapy"])]

/-- Entities produced by finditer for one pattern family over the lower-cased
query. -/
def patternEntities (pats : List MedPattern) (etype : String) (conf : ℚ)
    (q : List Char) : List MedicalEntity :=
  pats.flatMap fun p => (finditer p q).map fun m =>
    { text := ⟨(q.drop m.1).take m.2⟩, entity_type := etype, confidence := conf,
      start_pos := m.1, end_pos := m.1 + m.2 }

/-- _extract_entities: symptom, condition, procedure, drug families in order,
over the lower-cased (not stripped) query. -/
def extract_entities (query : String) : List MedicalEntity :=
  let query_lower := lowerChars query.data
  patternEntities symptom_patterns "symptom" (8/10) query_lower ++
  patternEntities condition_patterns "condition" (9/10) query_lower ++
  patternEntities procedure_patterns "procedure" (8/10) query_lower ++
  patternEntities drug_patterns "drug" (8/10) query_lower

/-- Emergency test of _classify_intent: any emergency pattern has a match. -/
def emergencyHit (query : List Char) : Bool :=
  emergency_patterns.any fun p => reSearch p query

/-- _classify_intent: emergency first, then entity types in the fixed
priority order. -/
def classify_intent (query : List Char) (entities : List MedicalEntity) : MedicalIntent :=
  if emergencyHit query then .emergency
  else
    let entity_types := entities.map fun e => e.entity_type
    if entity_types.contains "symptom" then .symptom_based
    else if entity_types.contains "procedure" then .procedure_based
    else if entity_types.contains "drug" then .drug_based
    else if entity_types.contains "condition" then .condition_based
    else .general

/-- Appended chunk for one synonym entry: a space plus the first two synonyms
joined by a space. -/
def synSegment (e : String × List String) : List Char :=
  ' ' :: List.intercalate [' '] ((e.2.take 2).map String.data)

/-- _enhance_query: walk the synonym table; whenever the key occurs in the
accumulated text, append its first two synonyms. -/
def enhance_query (query : List Char) : List Char :=
  medical_synonyms.foldl
    (fun enhanced e => if pyIn e.1.data enhanced then enhanced ++ synSegment e else enhanced)
    query

/-- _generate_suggestions: fixed lists per intent, truncated to four. -/
def generate_suggestions (query : List Char) (entities : List MedicalEntity)
    (intent : MedicalIntent) : List String :=
  let _ := query
  let _ := entities
  let suggestions :=
    if intent == .symptom_based then
      ["Related conditions and differential diagnosis",
       "Emergency protocols for severe symptoms",
       "Diagnostic procedures and tests",
       "Treatment protocols and medications"]
    else if intent == .procedure_based then
      ["Step-by-step procedure guide",
       "Required equipment and medications",
       "Contraindications and safety precautions",
       "Post-procedure care and monitoring"]
    else if intent == .emergency then
      ["Immediate emergency response protocols",
       "Critical care procedures",
       "Emergency medications and dosages",
       "Trauma and resuscitation protocols"]
    else []
  suggestions.take 4

/-- Numeric value of a digit run. -/
def natFromDigits (ds : List Char) : Nat :=
  ds.foldl (fun n c => n * 10 + (c.toNat - '0'.toNat)) 0

/-- Age regex match at position i: a digit run, optional whitespace, then one
of the literal age suffixes. -/
def ageMatchAt (q : List Char) (i : Nat) : Option Nat :=
  let ds := (q.drop i).takeWhile Char.isDigit
  if ds.isEmpty then none
  else
    let j := i + ds.length + spaceRunLen q (i + ds.length)
    if litAt "years old".data q j || litAt "year old".data q j || litAt "year-old".data q j then
      some (natFromDigits ds)
    else none

/-- re.search for the age pattern: leftmost matching position wins. -/
def ageSearch (q : List Char) : Option Nat :=
  (List.range (q.length + 1)).findSome? fun i => ageMatchAt q i

/-- Substring membership of any of a word list (Python any-in loops). -/
def containsAnyWord (q : List Char) (ws : List String) : Bool :=
  ws.any fun w => pyIn w.data q

/-- _extract_medical_context over the lower-cased stripped query. -/
def extract_medical_context (query : List Char) : MedicalQueryContext :=
  let age := ageSearch query
  let gender :=
    if containsAnyWord query ["male", "man", "boy"] then some "male"
    else if containsAnyWord query ["female", "woman", "girl"] then some "female"
    else none
  let urgency :=
    if containsAnyWord query ["emergency", "urgent", "critical", "immediate"] then "high"
    else if containsAnyWord query ["mild", "routine", "non-urgent"] then "low"
    else "medium"
  let setting :=
    if containsAnyWord query ["hospital", "emergency room", "er", "icu"] then "hospital"
    else if containsAnyWord query ["clinic", "outpatient", "office"] then "clinic"
    else "general"
  { age := age, gender := gender, urgency := some urgency, setting := some setting }

/-- analyze_query: the top-level NLP entry point. -/
def analyze_query (query : String) : QueryAnalysis :=
  let query_lower := stripChars (lowerChars query.data)
  let entities := extract_entities query
  let intent := classify_intent query_lower entities
  let enhanced_query := enhance_query query_lower
  let suggestions := generate_suggestions query_lower entities intent
  let medical_context := extract_medical_context query_lower
  { original_query := query, intent := intent, entities := entities,
    enhanced_query := ⟨enhanced_query⟩, suggestions := suggestions,
    medical_context := medical_context }

/-! ## Clinical decision service (clinical_decision_service.py)

The service is embedded in the Except monad because its allergy branch is
not exception-free: inside _assess_allergies the source evaluates
drugs.split() where drugs is a Python list (the values of
drug_allergy_patterns), and lists have no split attribute, so the first
loop iteration raises AttributeError whenever the allergy list is
non-empty.  Line 178 of the source iterates the same value as a list,
which is why the embedding keeps the rest of the branch structure. -/

/-- RiskLevel enum of clinical_decision_service.py. -/
inductive RiskLevel where
  | low
  | moderate
  | high
  | critical
deriving DecidableEq, BEq, Repr

/-- Contraindication dicts appended by the three producing branches; they have
different key sets, so they are embedded as a sum.  Field order follows the
dict literals of the source. -/
inductive ContraDict where
  | allergyContra (drug allergy severity recommendation : String)
  | interactionContra (medication interacting_drug severity recommendation : String)
  | pregnancyContra (drug reason severity recommendation : String)
deriving DecidableEq, Repr

/-- Read of contra.get("severity") in _determine_overall_risk. -/
def ContraDict.severity : ContraDict → String
  | .allergyContra _ _ s _ => s
  | .interactionContra _ _ s _ => s
  | .pregnancyContra _ _ s _ => s

/-- Dosage adjustment dicts appended by the age branch and the history branch. -/
inductive DosageAdj where
  | simpleAdj (type description : String)
  | conditionAdj (type condition : String) (adjustments : List String)
deriving DecidableEq, Repr

/-- PatientContext dataclass: every field defaults to None. -/
structure PatientContext where
  age : Option Int := none
  gender : Option String := none
  weight : Option ℚ := none
  allergies : Option (List String) := none
  medical_history : Option (List String) := none
  current_medications : Option (List String) := none
  pregnancy_status : Option String := none
  setting : Option String := none
deriving DecidableEq, Repr

/-- RiskAssessment dataclass. -/
structure RiskAssessment where
  overall_risk : RiskLevel
  risk_factors : List String
  recommendations : List String
  contraindications : List ContraDict
  dosage_adjustments : List DosageAdj
deriving DecidableEq, Repr

/-- Protocol data map: only the content key is read, with default "". -/
structure ProtocolData where
  content : Option String := none
deriving DecidableEq, Repr

/-- Read str(protocol_data.get("content", "")).lower(). -/
def protocolContentLower (pd : ProtocolData) : String :=
  lowerS (pd.content.getD "")

/-- _assess_age_risk: (factors, recommendations, adjustments). -/
def assess_age_risk (age : Int) : List String × List String × List DosageAdj :=
  if age < 18 then
    (["Pediatric patient - specialized protocols required"],
     ["Use pediatric dosing guidelines", "Consider parental consent requirements"],
     [.simpleAdj "pediatric_dosing" "Adjust dosages based on weight and age"])
  else if age ≥ 65 then
    (["Geriatric patient - increased risk profile",
      "Potential for reduced kidney function"],
     ["Monitor kidney function", "Assess for polypharmacy interactions",
      "Consider fall risk and mobility issues"],
     [.simpleAdj "renal_adjustment" "Consider reduced dosing for renal clearance"])
  else ([], [], [])

/-- _assess_allergies: the first iteration of the loop body evaluates
drugs.split() on a list value of drug_allergy_patterns and raises
AttributeError, so any non-empty allergy list produces the exception; an
empty list skips the loop and returns the empty accumulators. -/
def assess_allergies (allergies : List String) (pd : ProtocolData) :
    Except String (List ContraDict × List String) :=
  let _ := protocolContentLower pd
  match allergies with
  | [] => .ok ([], [])
  | _ :: _ => .error "AttributeError: 'list' object has no attribute 'split'"

/-- condition_interactions table: (key, risk_factors, drug_adjustments). -/
def condition_interactions : List (String × List String × List String) :=
  [("diabetes",
    ["delayed wound healing", "infection risk", "cardiovascular complications"],
    ["insulin requirements", "glucose monitoring"]),
   ("hypertension",
    ["cardiovascular events", "stroke risk"],
    ["blood pressure monitoring", "ace inhibitor considerations"]),
   ("kidney_disease",
    ["drug clearance issues", "fluid balance"],
    ["reduced dosing", "creatinine monitoring"]),
   ("liver_disease",
    ["drug metabolism issues", "bleeding risk"],
    ["hepatic dosing", "liver function monitoring"]),
   ("pregnancy",
    ["fetal safety", "maternal complications"],
    ["pregnancy category", "teratogenic risk"])]

/-- _assess_medical_history: (risk_factors, recommendations, adjustments). -/
def assess_medical_history (medical_history : List String) (pd : ProtocolData) :
    List String × List String × List DosageAdj :=
  let _ := protocolContentLower pd
  medical_history.foldl (fun acc condition =>
    condition_interactions.foldl (fun acc2 entry =>
      if pyInS entry.1 (lowerS condition) then
        (acc2.1 ++ entry.2.1.map (fun risk => condition ++ ": " ++ risk),
         acc2.2.1 ++ entry.2.2.map (fun adj => "Monitor for " ++ adj),
         acc2.2.2 ++ [.conditionAdj "condition_based" condition entry.2.2])
      else acc2) acc) ([], [], [])

/-- interaction_patterns table of _assess_current_medications. -/
def interaction_patterns : List (String × List String) :=
  [("warfarin", ["aspirin", "nsaids", "antibiotics"]),
   ("digoxin", ["diuretics", "calcium channel blockers"]),
   ("insulin", ["beta blockers", "thiazides"]),
   ("ace inhibitors", ["potassium supplements", "nsaids"]),
   ("beta blockers", ["insulin", "calcium channel blockers"])]

/-- _assess_current_medications: (interactions, recommendations). -/
def assess_current_medications (medications : List String) (pd : ProtocolData) :
    List ContraDict × List String :=
  let protocol_content := protocolContentLower pd
  medications.foldl (fun acc medication =>
    interaction_patterns.foldl (fun acc2 entry =>
      if pyInS entry.1 (lowerS medication) then
        entry.2.foldl (fun acc3 interacting_drug =>
          if pyInS interacting_drug protocol_content then
            (acc3.1 ++ [.interactionContra medication interacting_drug "moderate"
              ("Monitor for interaction between " ++ medication ++ " and " ++ interacting_drug)],
             acc3.2 ++ ["Monitor patient for drug interaction between " ++ medication ++
               " and " ++ interacting_drug])
          else acc3) acc2
      else acc2) acc) ([], [])

/-- _assess_pregnancy_risk: (risk_factors, recommendations, contraindications). -/
def assess_pregnancy_risk (pregnancy_status : String) (pd : ProtocolData) :
    List String × List String × List ContraDict :=
  if ["pregnant", "pregnancy", "expecting"].contains (lowerS pregnancy_status) then
    let contraindicated_drugs :=
      ["warfarin", "ace inhibitors", "statins", "methotrexate", "isotretinoin"]
    let protocol_content := protocolContentLower pd
    (["Pregnant patient - fetal safety considerations"],
     ["Consider pregnancy category of all medications", "Assess teratogenic risk",
      "Consider fetal monitoring if applicable"],
     contraindicated_drugs.foldl (fun acc drug =>
       if pyInS drug protocol_content then
         acc ++ [.pregnancyContra drug "pregnancy" "severe"
           ("Avoid " ++ drug ++ " in pregnancy due to teratogenic risk")]
       else acc) [])
  else ([], [], [])

/-- _determine_overall_risk: first matching tier wins. -/
def determine_overall_risk (risk_factors : List String)
    (contraindications : List ContraDict) : RiskLevel :=
  if contraindications.any (fun c => c.severity == "contraindicated") then .critical
  else if 0 < contraindications.countP (fun c => c.severity == "severe") then .high
  else if risk_factors.length > 3 || contraindications.length > 1 then .moderate
  else .low

/-- Python truthiness of an optional string (None and "" are falsy). -/
def truthyStr : Option String → Bool
  | none => false
  | some s => !s.isEmpty

/-- assess_patient_risk: run each populated sub-assessment, accumulate the
lists in source order, and classify the overall risk.  The allergy branch can
raise, so the result lives in Except. -/
def assess_patient_risk (patient_context : PatientContext) (protocol_data : ProtocolData) :
    Except String RiskAssessment := do
  let (risk1, recs1, adjs1) :=
    match patient_context.age with
    | some age => assess_age_risk age
    | none => ([], [], [])
  let (contras2, recs2) ←
    match patient_context.allergies with
    | some (a :: rest) => assess_allergies (a :: rest) protocol_data
    | _ => pure ([], [])
  let (risk3, recs3, adjs3) :=
    match patient_context.medical_history with
    | some (h :: rest) => assess_medical_history (h :: rest) protocol_data
    | _ => ([], [], [])
  let (inter4, recs4) :=
    match patient_context.current_medications with
    | some (m :: rest) => assess_current_medications (m :: rest) protocol_data
    | _ => ([], [])
  let (risk5, recs5, contras5) :=
    if truthyStr patient_context.pregnancy_status then
      assess_pregnancy_risk (patient_context.pregnancy_status.getD "") protocol_data
    else ([], [], [])
  let risk_factors := risk1 ++ risk3 ++ risk5
  let contraindications := contras2 ++ inter4 ++ contras5
  pure
    { overall_risk := determine_overall_risk risk_factors contraindications,
      risk_factors := risk_factors,
      recommendations := recs1 ++ recs2 ++ recs3 ++ recs4 ++ recs5,
      contraindications := contraindications,
      dosage_adjustments := adjs1 ++ adjs3 }

/-! ## Enhanced search service (enhanced_search_service.py) -/

/-- Search hit source map: only the content key is read, with default "". -/
structure SourceDoc where
  content : Option String := none
deriving DecidableEq, Repr

/-- Read source.get("content", "").lower(). -/
def sourceContentLower (s : SourceDoc) : String :=
  lowerS (s.content.getD "")

/-- Raw search hit: hit.get("_source", {}) and hit.get("_score", 0). -/
structure SearchHit where
  source : Option SourceDoc := none
  score : ℚ := 0
deriving DecidableEq, Repr

/-- _calculate_medical_relevance: 0.5 base, +0.3 for emergency intent with an
emergency keyword in the content, +0.1 per entity text found in the content,
+0.2 for high urgency in the medical context, clamped from above at 1.0. -/
def calculate_medical_relevance (source : SourceDoc) (analysis : QueryAnalysis) : ℚ :=
  let base1 : ℚ :=
    if analysis.intent == .emergency then
      if ["emergency", "urgent", "critical", "immediate"].any
          (fun w => pyInS w (sourceContentLower source)) then 1/2 + 3/10
      else 1/2
    else 1/2
  let base2 := analysis.entities.foldl
    (fun b e => if pyInS (lowerS e.text) (sourceContentLower source) then b + 1/10 else b)
    base1
  let base3 :=
    if analysis.medical_context.urgency == some "high" then base2 + 2/10 else base2
  min base3 1

/-- Tiered keyword classification used by the three categorical assessments. -/
def firstTier (content : String) (tiers : List (List String × String))
    (fallback : String) : String :=
  match tiers.find? (fun t => t.1.any fun w => pyInS w content) with
  | some t => t.2
  | none => fallback

/-- _assess_clinical_importance. -/
def assess_clinical_importance (source : SourceDoc) (analysis : QueryAnalysis) : String :=
  let _ := analysis
  firstTier (sourceContentLower source)
    [(["emergency", "critical", "life-threatening", "immediate"], "critical"),
     (["urgent", "important", "priority", "serious"], "high"),
     (["routine", "standard", "common"], "medium")] "low"

/-- _assess_safety_level. -/
def assess_safety_level (source : SourceDoc) (analysis : QueryAnalysis) : String :=
  let _ := analysis
  firstTier (sourceContentLower source)
    [(["contraindication", "warning", "danger", "risk", "adverse"], "high-risk"),
     (["caution", "careful", "monitor", "supervision"], "moderate-risk")] "low-risk"

/-- _assess_urgency. -/
def assess_urgency (source : SourceDoc) (analysis : QueryAnalysis) : String :=
  let _ := analysis
  firstTier (sourceContentLower source)
    [(["immediate", "stat", "emergency", "critical"], "immediate"),
     (["urgent", "asap", "priority"], "urgent"),
     (["routine", "scheduled", "planned"], "routine")] "standard"

/-- _get_related_conditions. -/
def get_related_conditions_hit (source : SourceDoc) (analysis : QueryAnalysis) : List String :=
  let _ := analysis
  let content := sourceContentLower source
  let related :=
    (if pyInS "cardiac" content || pyInS "heart" content then
      ["myocardial infarction", "cardiac arrest", "heart failure"] else []) ++
    (if pyInS "respiratory" content || pyInS "breathing" content then
      ["pneumonia", "asthma", "respiratory failure"] else []) ++
    (if pyInS "diabetes" content then
      ["diabetic ketoacidosis", "hypoglycemia", "diabetic complications"] else [])
  related.take 3

/-- _get_contraindications of the search service (per hit). -/
def get_contraindications_hit (source : SourceDoc) (analysis : QueryAnalysis) : List String :=
  let content := sourceContentLower source
  (if pyInS "penicillin" content && pyInS "allergy" (lowerS analysis.original_query) then
    ["Penicillin allergy contraindication"] else []) ++
  (if pyInS "pregnancy" content && analysis.medical_context.gender == some "female" then
    ["Pregnancy considerations"] else []) ++
  (if pyInS "pediatric" content && analysis.medical_context.age.getD 0 > 18 then
    ["Adult patient - pediatric protocol"] else [])

/-- Per-hit annotation dict of _enhance_single_result. -/
structure MedicalAnnotations where
  relevance_score : ℚ
  clinical_importance : String
  safety_level : String
  urgency_indicator : String
  related_conditions : List String
  contraindications : List String
deriving DecidableEq, Repr

/-- Enhanced hit returned by _enhance_single_result. -/
structure EnhancedHit where
  source : Option SourceDoc
  score : ℚ
  medical_annotations : MedicalAnnotations
deriving DecidableEq, Repr

/-- _enhance_single_result: attach the medical annotations to the hit. -/
def enhance_single_result (hit : SearchHit) (analysis : QueryAnalysis) : EnhancedHit :=
  let source := hit.source.getD {}
  { source := hit.source, score := hit.score,
    medical_annotations :=
      { relevance_score := calculate_medical_relevance source analysis,
        clinical_importance := assess_clinical_importance source analysis,
        safety_level := assess_safety_level source analysis,
        urgency_indicator := assess_urgency source analysis,
        related_conditions := get_related_conditions_hit source analysis,
        contraindications := get_contraindications_hit source analysis } }

/-! ## Specification-side definitions used by the claim statements -/

/-- Contribution list of one symptom: the (condition id, strength) pairs of its
condition-typed symptom_to_condition related pairs, as fetched by
get_differential_diagnosis. -/
def symptomConditionContribs (s : String) : List (String × ℚ) :=
  match find_concept s with
  | none => []
  | some concept =>
    (get_related_concepts concept.id (some [.symptom_to_condition])).filterMap fun p =>
      if p.1.concept_type == "condition" then some (p.1.id, p.2.strength) else none

/-- Sum of the values attached to one key in a contribution list. -/
def sumKeyScores (k : String) (l : List (String × ℚ)) : ℚ :=
  ((l.filter fun kv => kv.1 == k).map fun kv => kv.2).sum

/-- Additive differential-diagnosis score of one condition id: the sum over the
input symptoms of the strengths that symptom contributes to the condition. -/
def diagnosisScore (symptoms : List String) (condition_id : String) : ℚ :=
  (symptoms.map fun s => sumKeyScores condition_id (symptomConditionContribs s)).sum

/-- Value stored for a key in the accumulator dict (0 when absent). -/
def dictVal (d : List (String × ℚ)) (k : String) : ℚ :=
  ((d.find? fun kv => kv.1 == k).map fun kv => kv.2).getD 0

/-- Modelled from the claim wording of C4 (spec 4.4): relevance as 0.5, plus
0.3 for emergency intent with an emergency keyword in the content, plus 0.1
per matching entity, clamped to [0,1], with no other contribution.  This is
the refinement target the code is compared against; it is not the code. -/
def c4_claimed_relevance (source : SourceDoc) (analysis : QueryAnalysis) : ℚ :=
  min ((1/2 : ℚ) +
    (if analysis.intent == .emergency &&
        ["emergency", "urgent", "critical", "immediate"].any
          (fun w => pyInS w (sourceContentLower source)) then 3/10 else 0) +
    (1/10) * analysis.entities.countP
      (fun e => pyInS (lowerS e.text) (sourceContentLower source))) 1

/-- Suffix appended by query enhancement according to the claim: per synonym
table entry whose key occurs in the lower-cased query, a space plus the first
two synonyms, in table order. -/
def enhancementSuffix (q : List Char) : List Char :=
  (medical_synonyms.map fun e => if pyIn e.1.data q then synSegment e else []).flatten

/-- Compatibility of a synonym key with an appended segment: the key does not
occur inside the segment, and no nonempty proper tail of the key is a prefix
of the segment (so no occurrence can straddle the point where the segment is
appended). -/
def goodB (k s : List Char) : Bool :=
  !pyIn k s && ((List.range k.length).all fun n => n == 0 || !isPre (k.drop n) s)

/-- Compatibility of every later synonym key with every earlier appended
segment, in table order. -/
def pairwiseGoodB : List (String × List String) → Bool
  | [] => true
  | e :: rest =>
    (rest.all fun e' => goodB e'.1.data (synSegment e)) && pairwiseGoodB rest

/-! ## Generic helper lemmas -/

theorem isPre_iff (l₁ l₂ : List Char) : isPre l₁ l₂ = true ↔ l₁ <+: l₂ := by
  induction l₁ generalizing l₂ with
  | nil => simp [isPre]
  | cons a as ih =>
    cases l₂ with
    | nil => simp [isPre]
    | cons b bs =>
      simp only [isPre, Bool.and_eq_true, beq_iff_eq, ih, List.cons_prefix_cons]

theorem pyIn_iff (n h : List Char) : pyIn n h = true ↔ n <:+: h := by
  constructor
  · intro hp
    obtain ⟨i, hi, hpre⟩ := List.any_eq_true.mp hp
    obtain ⟨t, ht⟩ := (isPre_iff _ _).mp hpre
    exact ⟨h.take i, t, by rw [List.append_assoc, ht, List.take_append_drop]⟩
  · rintro ⟨u, v, huv⟩
    apply List.any_eq_true.mpr
    refine ⟨u.length, ?_, ?_⟩
    · apply List.mem_range.mpr
      have : (u ++ n ++ v).length = h.length := by rw [huv]
      simp only [List.length_append] at this
      omega
    · have hdrop : h.drop u.length = n ++ v := by
        rw [← huv, List.append_assoc, List.drop_left]
      rw [hdrop]
      exact (isPre_iff _ _).mpr ⟨v, rfl⟩

theorem pyIn_of_isInfix {n h : List Char} (hn : n <:+: h) : pyIn n h = true :=
  (pyIn_iff n h).mpr hn

theorem pairwise_sortDesc {α : Type} (f : α → ℚ) (l : List α) :
    (List.insertionSort (fun x y => f y ≤ f x) l).Pairwise (fun x y => f y ≤ f x) := by
  haveI ht : IsTotal α (fun x y => f y ≤ f x) := ⟨fun a b => le_total (f b) (f a)⟩
  haveI htr : IsTrans α (fun x y => f y ≤ f x) := ⟨fun a b c hab hbc => le_trans hbc hab⟩
  exact List.sorted_insertionSort _ l

theorem mem_sortDesc {α : Type} (r : α → α → Prop) [DecidableRel r] {x : α} {l : List α} :
    x ∈ List.insertionSort r l ↔ x ∈ l :=
  (List.perm_insertionSort r l).mem_iff

theorem contains_map_entityType (l : List MedicalEntity) (s : String) :
    (l.map fun e => e.entity_type).contains s = l.any fun e => e.entity_type == s := by
  induction l with
  | nil => rfl
  | cons e es ih =>
    simp only [List.map_cons, List.contains_cons, List.any_cons, ih]
    have hbeq : (s == e.entity_type) = (e.entity_type == s) := by
      by_cases h : s = e.entity_type
      · subst h; rfl
      · rw [beq_eq_false_iff_ne.mpr h, beq_eq_false_iff_ne.mpr (Ne.symm h)]
    rw [hbeq]

/-! ## Knowledge graph lemmas -/

theorem find_concept_mem {s : String} {c : MedicalConcept}
    (h : find_concept s = some c) : c ∈ concepts_list := by
  unfold find_concept at h
  exact List.mem_of_find?_eq_some h

theorem conceptsGet_id {k : String} {c : MedicalConcept}
    (h : conceptsGet k = some c) : c.id = k := by
  have := List.find?_some h
  exact eq_of_beq this

theorem related_strength_bound (concept_id : String)
    (relationship_types : Option (List RelationshipType)) (min_strength : ℚ)
    (p : MedicalConcept × MedicalRelationship)
    (hp : p ∈ get_related_concepts concept_id relationship_types min_strength) :
    min_strength ≤ p.2.strength := by
  unfold get_related_concepts at hp
  rw [mem_sortDesc] at hp
  obtain ⟨rel, hrel, hf⟩ := List.mem_filterMap.mp hp
  by_cases h1 : rel.strength < min_strength
  · rw [if_pos h1] at hf
    cases hf
  · have hms : min_strength ≤ rel.strength := le_of_not_lt h1
    rw [if_neg h1] at hf
    by_cases h2 : typeFilterRejects relationship_types rel.relationship_type = true
    · rw [if_pos h2] at hf
      cases hf
    · rw [if_neg h2] at hf
      by_cases h3 : (rel.source == concept_id) = true
      · rw [if_pos h3] at hf
        obtain ⟨c, _, hc⟩ := Option.map_eq_some'.mp hf
        rw [← hc]
        exact hms
      · rw [if_neg h3] at hf
        by_cases h4 : (rel.target == concept_id) = true
        · rw [if_pos h4] at hf
          obtain ⟨c, _, hc⟩ := Option.map_eq_some'.mp hf
          rw [← hc]
          exact hms
        · rw [if_neg h4] at hf
          cases hf

theorem related_contra_nil :
    ∀ c ∈ concepts_list, get_related_concepts c.id (some [.contraindication]) = [] :=
  of_decide_eq_true (by with_unfolding_all rfl)

theorem get_contraindications_nil (drug : String) : get_contraindications drug = [] := by
  unfold get_contraindications
  cases h : find_concept drug with
  | none => rfl
  | some c => exact related_contra_nil c (find_concept_mem h)

theorem mcStep_contraindications (ctx : MedicalContextResult) (t : String) :
    (mcStep ctx t).contraindications = ctx.contraindications := by
  unfold mcStep
  cases h : find_concept t with
  | none => rfl
  | some concept =>
    simp only [get_contraindications_nil, List.map_nil, List.append_nil]
    split_ifs <;> rfl

theorem medical_context_contraindications_nil (query_entities : List EntityDict) :
    (get_medical_context query_entities).contraindications = [] := by
  have hfold : ∀ (texts : List String) (ctx : MedicalContextResult),
      (texts.foldl mcStep ctx).contraindications = ctx.contraindications := by
    intro texts
    induction texts with
    | nil => intro ctx; rfl
    | cons t ts ih =>
      intro ctx
      rw [List.foldl_cons, ih, mcStep_contraindications]
  simp only [get_medical_context]
  split <;> simp [hfold]

/-! ## Differential-diagnosis accumulator lemmas -/

theorem dictVal_cons (kv : String × ℚ) (d : List (String × ℚ)) (k : String) :
    dictVal (kv :: d) k = if kv.1 == k then kv.2 else dictVal d k := by
  unfold dictVal
  by_cases h : (kv.1 == k) = true
  · simp [List.find?, h]
  · simp [List.find?, h]

theorem sumKeyScores_cons (k : String) (kv : String × ℚ) (l : List (String × ℚ)) :
    sumKeyScores k (kv :: l) = (if kv.1 == k then kv.2 else 0) + sumKeyScores k l := by
  unfold sumKeyScores
  rw [List.filter_cons]
  by_cases h : (kv.1 == k) = true
  · rw [if_pos h, if_pos h, List.map_cons, List.sum_cons]
  · rw [if_neg h, if_neg h, zero_add]

theorem sumKeyScores_append (k : String) (l₁ l₂ : List (String × ℚ)) :
    sumKeyScores k (l₁ ++ l₂) = sumKeyScores k l₁ + sumKeyScores k l₂ := by
  unfold sumKeyScores
  rw [List.filter_append, List.map_append, List.sum_append]

theorem dictAddScore_val (d : List (String × ℚ)) (k0 : String) (v : ℚ) (k : String) :
    dictVal (dictAddScore d k0 v) k = dictVal d k + (if k0 == k then v else 0) := by
  induction d with
  | nil =>
    show dictVal [(k0, v)] k = dictVal [] k + _
    rw [dictVal_cons]
    by_cases h : (k0 == k) = true
    · simp [h, dictVal]
    · simp [h, dictVal]
  | cons kv d ih =>
    show dictVal (if kv.1 == k0 then (kv.1, kv.2 + v) :: d else kv :: dictAddScore d k0 v) k = _
    by_cases h : kv.1 = k0
    · subst h
      rw [if_pos (by simp), dictVal_cons, dictVal_cons]
      by_cases h2 : kv.1 = k
      · simp [h2]
      · simp [beq_eq_false_iff_ne.mpr h2, beq_eq_false_iff_ne.mpr h2]
    · rw [if_neg (by simpa using h), dictVal_cons, dictVal_cons, ih]
      by_cases h2 : kv.1 = k
      · have hne : k0 ≠ k := fun hc => h (by rw [h2, hc])
        simp [beq_iff_eq.mpr h2, beq_eq_false_iff_ne.mpr hne]
      · simp [beq_eq_false_iff_ne.mpr h2, add_assoc]

theorem mem_keys_dictAddScore {d : List (String × ℚ)} {k0 : String} {v : ℚ} {x : String}
    (hx : x ∈ (dictAddScore d k0 v).map fun kv => kv.1) :
    x ∈ (d.map fun kv => kv.1) ∨ x = k0 := by
  induction d with
  | nil =>
    simp only [dictAddScore, List.map_cons, List.map_nil, List.mem_singleton] at hx
    exact Or.inr hx
  | cons kv d ih =>
    by_cases h : (kv.1 == k0) = true
    · simp only [dictAddScore, if_pos h, List.map_cons, List.mem_cons] at hx ⊢
      exact Or.inl hx
    · simp only [dictAddScore, if_neg h, List.map_cons, List.mem_cons] at hx ⊢
      rcases hx with hx | hx
      · exact Or.inl (Or.inl hx)
      · rcases ih hx with h1 | h1
        · exact Or.inl (Or.inr h1)
        · exact Or.inr h1

theorem nodup_keys_dictAddScore {d : List (String × ℚ)} {k0 : String} {v : ℚ}
    (h : ((d.map fun kv => kv.1).Nodup)) :
    ((dictAddScore d k0 v).map fun kv => kv.1).Nodup := by
  induction d with
  | nil => simp [dictAddScore]
  | cons kv d ih =>
    rw [List.map_cons, List.nodup_cons] at h
    by_cases hh : (kv.1 == k0) = true
    · simp only [dictAddScore, if_pos hh, List.map_cons, List.nodup_cons]
      exact h
    · simp only [dictAddScore, if_neg hh, List.map_cons, List.nodup_cons]
      refine ⟨fun hc => ?_, ih h.2⟩
      rcases mem_keys_dictAddScore hc with h1 | h1
      · exact h.1 h1
      · exact hh (beq_iff_eq.mpr h1)

theorem dictVal_of_mem {d : List (String × ℚ)} {k : String} {v : ℚ}
    (hnd : ((d.map fun kv => kv.1).Nodup)) (hmem : (k, v) ∈ d) : dictVal d k = v := by
  induction d with
  | nil => cases hmem
  | cons kv d ih =>
    rw [List.map_cons, List.nodup_cons] at hnd
    rcases List.mem_cons.mp hmem with h | h
    · rw [← h, dictVal_cons, if_pos (by simp)]
    · rw [dictVal_cons]
      have hk : k ∈ d.map fun kv => kv.1 := List.mem_map.mpr ⟨(k, v), h, rfl⟩
      have hne : (kv.1 == k) = false :=
        beq_eq_false_iff_ne.mpr fun hc => hnd.1 (hc ▸ hk)
      rw [hne, if_neg (by simp)]
      exact ih hnd.2 h

theorem foldl_dictAddScore_val (l : List (String × ℚ)) :
    ∀ (d : List (String × ℚ)) (k : String),
      dictVal (l.foldl (fun d' kv => dictAddScore d' kv.1 kv.2) d) k =
        dictVal d k + sumKeyScores k l := by
  induction l with
  | nil =>
    intro d k
    show dictVal d k = dictVal d k + sumKeyScores k []
    rw [show sumKeyScores k [] = 0 from rfl, add_zero]
  | cons kv l ih =>
    intro d k
    rw [List.foldl_cons, ih, dictAddScore_val, sumKeyScores_cons, add_assoc]

theorem foldl_dictAddScore_nodup (l : List (String × ℚ)) :
    ∀ (d : List (String × ℚ)), ((d.map fun kv => kv.1).Nodup) →
      (((l.foldl (fun d' kv => dictAddScore d' kv.1 kv.2) d).map fun kv => kv.1).Nodup) := by
  induction l with
  | nil => intro d h; exact h
  | cons kv l ih =>
    intro d h
    rw [List.foldl_cons]
    exact ih _ (nodup_keys_dictAddScore h)

theorem foldl_contrib (rels : List (MedicalConcept × MedicalRelationship)) :
    ∀ d : List (String × ℚ),
      rels.foldl (fun d' p =>
        if p.1.concept_type == "condition" then dictAddScore d' p.1.id p.2.strength
        else d') d =
      (rels.filterMap fun p =>
        if p.1.concept_type == "condition" then some (p.1.id, p.2.strength)
        else none).foldl (fun d' kv => dictAddScore d' kv.1 kv.2) d := by
  induction rels with
  | nil => intro d; rfl
  | cons p rels ih =>
    intro d
    rw [List.foldl_cons, List.filterMap_cons]
    by_cases h : (p.1.concept_type == "condition") = true
    · rw [if_pos h, if_pos h, List.foldl_cons, ih]
    · rw [if_neg h, if_neg h, ih]

theorem foldl_diagStep_eq (symptoms : List String) :
    ∀ d : List (String × ℚ),
      symptoms.foldl diagStep d =
        (symptoms.flatMap symptomConditionContribs).foldl
          (fun d' kv => dictAddScore d' kv.1 kv.2) d := by
  induction symptoms with
  | nil => intro d; rfl
  | cons s ss ih =>
    intro d
    rw [List.foldl_cons, List.flatMap_cons, List.foldl_append, ih]
    congr 1
    unfold diagStep symptomConditionContribs
    cases h : find_concept s with
    | none => rfl
    | some c => exact foldl_contrib _ d

theorem diagnosisScore_flatMap (symptoms : List String) (k : String) :
    diagnosisScore symptoms k = sumKeyScores k (symptoms.flatMap symptomConditionContribs) := by
  induction symptoms with
  | nil => rfl
  | cons s ss ih =>
    unfold diagnosisScore at ih ⊢
    rw [List.map_cons, List.sum_cons, List.flatMap_cons, sumKeyScores_append, ih]

theorem gdd_score (symptoms : List String) (p : MedicalConcept × ℚ)
    (hp : p ∈ get_differential_diagnosis symptoms) :
    p.2 = diagnosisScore symptoms p.1.id := by
  simp only [get_differential_diagnosis] at hp
  rw [mem_sortDesc] at hp
  obtain ⟨kv, hkv, hmap⟩ := List.mem_filterMap.mp hp
  obtain ⟨c, hc, hpair⟩ := Option.map_eq_some'.mp hmap
  have hid : c.id = kv.1 := conceptsGet_id hc
  have hnd : (((symptoms.foldl diagStep []).map fun kv => kv.1).Nodup) := by
    rw [foldl_diagStep_eq]
    exact foldl_dictAddScore_nodup _ [] (by simp)
  have hval : dictVal (symptoms.foldl diagStep []) kv.1 = kv.2 := by
    exact dictVal_of_mem hnd hkv
  have hsum : dictVal (symptoms.foldl diagStep []) kv.1 = diagnosisScore symptoms kv.1 := by
    rw [foldl_diagStep_eq, foldl_dictAddScore_val, diagnosisScore_flatMap]
    rw [show dictVal [] kv.1 = 0 from rfl, zero_add]
  rw [← hpair]
  show kv.2 = diagnosisScore symptoms c.id
  rw [hid, ← hval, hsum]

/-! ## Query-enhancement lemmas

The enhancement loop tests each synonym key against the text accumulated so
far, not against the original query.  The following lemmas show that for the
concrete synonym table this makes no difference: no key occurs inside any
appended segment, and no key can straddle the boundary where a segment is
appended, because no nonempty tail of a key is a prefix of any segment. -/

theorem infix_append_cases {k x s : List Char} (h : k <:+: x ++ s) :
    k <:+: x ∨ k <:+: s ∨
      ∃ n, 0 < n ∧ n < k.length ∧ (k.take n) <:+ x ∧ (k.drop n) <+: s := by
  obtain ⟨u, v, huv⟩ := h
  rcases List.append_eq_append_iff.mp huv with ⟨a, hx, hv⟩ | ⟨c, huk, hs⟩
  · exact Or.inl ⟨u, a, hx.symm⟩
  · rcases List.append_eq_append_iff.mp huk with ⟨w, hx2, hk⟩ | ⟨w, hu, hc⟩
    · by_cases hc0 : c = []
      · subst hc0
        rw [List.append_nil] at hk
        exact Or.inl ⟨u, [], by rw [List.append_nil, hx2, hk]⟩
      · by_cases hw0 : w = []
        · subst hw0
          rw [List.nil_append] at hk
          exact Or.inr (Or.inl ⟨[], v, by rw [List.nil_append, hk, ← hs]⟩)
        · refine Or.inr (Or.inr ⟨w.length, List.length_pos.mpr hw0, ?_, ?_, ?_⟩)
          · rw [hk, List.length_append]
            have := List.length_pos.mpr hc0
            omega
          · rw [hk, List.take_left]
            exact ⟨u, hx2.symm⟩
          · rw [hk, List.drop_left]
            exact ⟨v, hs.symm⟩
    · exact Or.inr (Or.inl ⟨w, v, by rw [hs, hc, List.append_assoc]⟩)

theorem key_seg_infix {k s : List Char} (h1 : pyIn k s = false)
    (h2 : ∀ n ∈ List.range k.length, n = 0 ∨ isPre (k.drop n) s = false)
    (x : List Char) :
    k <:+: (x ++ s) ↔ k <:+: x := by
  constructor
  · intro h
    rcases infix_append_cases h with h | h | ⟨n, hn0, hnk, htake, hdrop⟩
    · exact h
    · rw [pyIn_of_isInfix h] at h1
      cases h1
    · rcases h2 n (List.mem_range.mpr hnk) with h0 | hpre
      · omega
      · rw [(isPre_iff _ _).mpr hdrop] at hpre
        cases hpre
  · rintro ⟨u, v, huv⟩
    exact ⟨u, v ++ s, by rw [← List.append_assoc, huv]⟩

theorem pyIn_append_seg {k s : List Char} (h1 : pyIn k s = false)
    (h2 : ∀ n ∈ List.range k.length, n = 0 ∨ isPre (k.drop n) s = false)
    (x : List Char) :
    pyIn k (x ++ s) = pyIn k x := by
  have hiff := key_seg_infix h1 h2 x
  by_cases hx : pyIn k x = true
  · rw [hx]
    exact (pyIn_iff _ _).mpr (hiff.mpr ((pyIn_iff _ _).mp hx))
  · rw [Bool.eq_false_iff.mpr hx]
    apply Bool.eq_false_iff.mpr
    intro hc
    exact hx ((pyIn_iff _ _).mpr (hiff.mp ((pyIn_iff _ _).mp hc)))

theorem pairwiseGood_table : pairwiseGoodB medical_synonyms = true := by
  with_unfolding_all rfl

theorem goodB_spec {k s : List Char} (h : goodB k s = true) :
    pyIn k s = false ∧ ∀ n ∈ List.range k.length, n = 0 ∨ isPre (k.drop n) s = false := by
  rw [goodB, Bool.and_eq_true] at h
  refine ⟨by simpa using h.1, ?_⟩
  intro n hn
  have h3 := h.2
  rw [List.all_eq_true] at h3
  have h4 := h3 n hn
  rw [Bool.or_eq_true] at h4
  rcases h4 with h4 | h4
  · exact Or.inl (by simpa using h4)
  · exact Or.inr (by simpa using h4)

theorem pyIn_append_flatten {k : List Char} :
    ∀ (l : List (List Char)), (∀ s ∈ l, goodB k s = true) → ∀ x : List Char,
      pyIn k (x ++ l.flatten) = pyIn k x := by
  intro l
  induction l with
  | nil =>
    intro _ x
    rw [List.flatten_nil, List.append_nil]
  | cons s l ih =>
    intro hl x
    rw [List.flatten_cons, ← List.append_assoc,
      ih (fun t ht => hl t (List.mem_cons_of_mem _ ht)) (x ++ s)]
    obtain ⟨h1, h2⟩ := goodB_spec (hl s (List.mem_cons_self _ _))
    exact pyIn_append_seg h1 h2 x

theorem enhance_fold_eq :
    ∀ (tbl : List (String × List String)), pairwiseGoodB tbl = true →
    ∀ (q : List Char) (l : List (List Char)),
      (∀ s ∈ l, ∀ e ∈ tbl, goodB e.1.data s = true) →
      tbl.foldl (fun enhanced e =>
          if pyIn e.1.data enhanced then enhanced ++ synSegment e else enhanced)
        (q ++ l.flatten) =
      q ++ l.flatten ++
        (tbl.map fun e => if pyIn e.1.data q then synSegment e else []).flatten := by
  intro tbl
  induction tbl with
  | nil =>
    intro _ q l _
    simp
  | cons e tbl ih =>
    intro htbl q l hl
    rw [show pairwiseGoodB (e :: tbl) =
        ((tbl.all fun e' => goodB e'.1.data (synSegment e)) && pairwiseGoodB tbl)
      from rfl, Bool.and_eq_true] at htbl
    have hcond : pyIn e.1.data (q ++ l.flatten) = pyIn e.1.data q :=
      pyIn_append_flatten l (fun s hs => hl s hs e (List.mem_cons_self _ _)) q
    rw [List.foldl_cons, hcond, List.map_cons, List.flatten_cons]
    by_cases hc : pyIn e.1.data q = true
    · rw [if_pos hc, if_pos hc]
      have hstep : q ++ l.flatten ++ synSegment e = q ++ (l ++ [synSegment e]).flatten := by
        rw [List.flatten_append, List.flatten_cons, List.flatten_nil, List.append_nil,
          List.append_assoc]
      rw [hstep, ih htbl.2 q (l ++ [synSegment e]) ?side]
      case side =>
        intro t ht e' he'
        rcases List.mem_append.mp ht with h | h
        · exact hl t h e' (List.mem_cons_of_mem _ he')
        · rw [List.mem_singleton.mp h]
          rw [List.all_eq_true] at htbl
          exact htbl.1 e' he'
      rw [List.flatten_append, List.flatten_cons, List.flatten_nil, List.append_nil]
      simp [List.append_assoc]
    · rw [if_neg hc, if_neg hc,
        ih htbl.2 q l (fun s hs e' he' => hl s hs e' (List.mem_cons_of_mem _ he')),
        List.nil_append]

theorem enhance_query_eq (q : List Char) :
    enhance_query q = q ++ enhancementSuffix q := by
  have h := enhance_fold_eq medical_synonyms pairwiseGood_table q [] (fun s hs => by cases hs)
  rw [List.flatten_nil, List.append_nil] at h
  rw [enhance_query, enhancementSuffix, h]

/-! ## Relevance-score lemmas -/

theorem entity_bonus_foldl (c : String) (entities : List MedicalEntity) :
    ∀ b : ℚ,
      entities.foldl (fun b e => if pyInS (lowerS e.text) c then b + 1/10 else b) b =
        b + (1/10) * (entities.countP fun e => pyInS (lowerS e.text) c) := by
  induction entities with
  | nil => intro b; simp
  | cons e es ih =>
    intro b
    rw [List.foldl_cons, List.countP_cons]
    by_cases h : pyInS (lowerS e.text) c = true
    · rw [if_pos h, ih, if_pos h]
      push_cast
      ring
    · rw [if_neg h, ih, if_neg h]
      push_cast
      ring

theorem relevance_closed_form (source : SourceDoc) (analysis : QueryAnalysis) :
    calculate_medical_relevance source analysis =
      min ((1/2 : ℚ) +
        (if analysis.intent == .emergency &&
            (["emergency", "urgent", "critical", "immediate"].any
              fun w => pyInS w (sourceContentLower source)) then 3/10 else 0) +
        (1/10) * (analysis.entities.countP
          fun e => pyInS (lowerS e.text) (sourceContentLower source)) +
        (if analysis.medical_context.urgency == some "high" then 2/10 else 0)) 1 := by
  simp only [calculate_medical_relevance]
  rw [entity_bonus_foldl]
  congr 1
  by_cases h1 : (analysis.intent == MedicalIntent.emergency) = true
  · by_cases h2 : (["emergency", "urgent", "critical", "immediate"].any
        fun w => pyInS w (sourceContentLower source)) = true
    · by_cases h3 : (analysis.medical_context.urgency == some "high") = true <;>
        simp [h1, h2, h3]
    · by_cases h3 : (analysis.medical_context.urgency == some "high") = true <;>
        simp [h1, h2, h3]
  · by_cases h3 : (analysis.medical_context.urgency == some "high") = true <;>
      simp [h1, h3]

theorem relevance_nonneg_le_one (source : SourceDoc) (analysis : QueryAnalysis) :
    0 ≤ calculate_medical_relevance source analysis ∧
      calculate_medical_relevance source analysis ≤ 1 := by
  rw [relevance_closed_form]
  constructor
  · apply le_min _ (by norm_num)
    have h1 : (0:ℚ) ≤
        (if analysis.intent == .emergency &&
            (["emergency", "urgent", "critical", "immediate"].any
              fun w => pyInS w (sourceContentLower source)) then (3/10 : ℚ) else 0) := by
      split <;> norm_num
    have h2 : (0:ℚ) ≤ (1/10 : ℚ) * (analysis.entities.countP
        fun e => pyInS (lowerS e.text) (sourceContentLower source)) := by
      positivity
    have h3 : (0:ℚ) ≤
        (if analysis.medical_context.urgency == some "high" then (2/10 : ℚ) else 0) := by
      split <;> norm_num
    linarith
  · exact min_le_right _ _

/-! ## Claim theorems -/

/-- C1: the claim states that assess_patient_risk never raises, including for
non-empty allergy lists.  The code refutes it: for every protocol data map, a
patient context whose only populated field is a non-empty allergies list makes
assess_patient_risk raise AttributeError, because _assess_allergies evaluates
drugs.split() on a list value of drug_allergy_patterns. -/
theorem c1_nonempty_allergies_raise (protocol_data : ProtocolData) :
    assess_patient_risk { allergies := some ["latex"] } protocol_data =
      .error "AttributeError: 'list' object has no attribute 'split'" := rfl

/-- C2: the claim states that an allergy of penicillin with protocol content
containing amoxicillin yields exactly one contraindicated entry and critical
overall risk.  The code instead raises AttributeError on that exact input,
before any contraindication can be produced, because _assess_allergies
evaluates drugs.split() on a list. -/
theorem c2_penicillin_amoxicillin_raises :
    assess_patient_risk { allergies := some ["penicillin"] }
      { content := some "administer amoxicillin 500 mg" } =
      .error "AttributeError: 'list' object has no attribute 'split'" := rfl

/-- C5: every pair returned by get_differential_diagnosis carries the additive
score of its condition (the sum over the input symptoms of the strengths of
that symptom's condition-typed symptom_to_condition related pairs, so repeated
support can exceed 1), the returned sequence is descending-sorted by score,
and on ["chest pain"] the result ranks heart_attack (0.9) above asthma (0.6). -/
theorem c5_differential_diagnosis :
    (∀ (symptoms : List String) (p : MedicalConcept × ℚ),
        p ∈ get_differential_diagnosis symptoms →
        p.2 = diagnosisScore symptoms p.1.id) ∧
    (∀ symptoms : List String,
        (get_differential_diagnosis symptoms).Pairwise fun x y => y.2 ≤ x.2) ∧
    get_differential_diagnosis ["chest pain"] =
      [(heart_attack_concept, 9/10), (asthma_concept, 6/10)] := by
  refine ⟨gdd_score, fun symptoms => ?_, by with_unfolding_all rfl⟩
  simp only [get_differential_diagnosis]
  exact pairwise_sortDesc (fun p : MedicalConcept × ℚ => p.2) _

/-- Witness for C5 at a concrete input: the heart_attack entry of
get_differential_diagnosis ["chest pain"] carries exactly its accumulated
score. -/
theorem c5_differential_diagnosis_witness :
    ((heart_attack_concept, (9/10 : ℚ))).2 =
      diagnosisScore ["chest pain"] ((heart_attack_concept, (9/10 : ℚ))).1.id :=
  c5_differential_diagnosis.1 ["chest pain"] _
    (of_decide_eq_true (by with_unfolding_all rfl))

/-- C6: every pair returned by get_related_concepts has strength at least
min_strength (the comparison is strict-less-than for skipping, so an edge of
strength exactly min_strength is kept, witnessed by diabetes to heart_attack at
0.5 under the default threshold 0.5), and the result is descending-sorted by
strength. -/
theorem c6_related_concepts :
    (∀ (concept_id : String) (relationship_types : Option (List RelationshipType))
        (min_strength : ℚ) (p : MedicalConcept × MedicalRelationship),
        p ∈ get_related_concepts concept_id relationship_types min_strength →
        min_strength ≤ p.2.strength) ∧
    (∀ (concept_id : String) (relationship_types : Option (List RelationshipType))
        (min_strength : ℚ),
        (get_related_concepts concept_id relationship_types min_strength).Pairwise
          fun x y => y.2.strength ≤ x.2.strength) ∧
    (heart_attack_concept, diabetes_heart_attack_rel) ∈
      get_related_concepts "diabetes" none (1/2) := by
  refine ⟨related_strength_bound, fun cid ts ms => ?_,
    of_decide_eq_true (by with_unfolding_all rfl)⟩
  unfold get_related_concepts
  exact pairwise_sortDesc (fun p : MedicalConcept × MedicalRelationship => p.2.strength) _

/-- Witness for C6 at a concrete input: the boundary edge diabetes to
heart_attack of strength exactly 0.5 is returned under the default threshold
0.5 and satisfies the bound. -/
theorem c6_related_concepts_witness :
    (1/2 : ℚ) ≤ ((heart_attack_concept, diabetes_heart_attack_rel)).2.strength :=
  c6_related_concepts.1 "diabetes" none (1/2) _ c6_related_concepts.2.2

/-- C8: get_contraindications returns the empty list for every input drug name,
because the two contraindication seed edges target ids without concept entries
and get_related_concepts drops edges whose other endpoint is unknown; hence the
contraindications bucket of get_medical_context is empty for every entity
list. -/
theorem c8_contraindications_always_empty :
    (∀ drug : String, get_contraindications drug = []) ∧
    (∀ query_entities : List EntityDict,
        (get_medical_context query_entities).contraindications = []) :=
  ⟨get_contraindications_nil, medical_context_contraindications_nil⟩

/-- C10: a patient context with no populated field yields, for every protocol
data map, overall risk low and empty risk factor, recommendation,
contraindication and dosage adjustment lists. -/
theorem c10_empty_context_low_risk (protocol_data : ProtocolData) :
    assess_patient_risk {} protocol_data =
      .ok { overall_risk := .low, risk_factors := [], recommendations := [],
            contraindications := [], dosage_adjustments := [] } := rfl

/-- C3: whenever the (lower-cased, stripped) query matches an emergency
pattern, analyze_query classifies it as emergency regardless of the extracted
entities; otherwise the intent follows the strict priority order symptom,
procedure, drug, condition over the types of the extracted entities, with
general as the fallback. -/
theorem c3_intent_priority (query : String) :
    (emergencyHit (stripChars (lowerChars query.data)) = true →
      (analyze_query query).intent = MedicalIntent.emergency) ∧
    (emergencyHit (stripChars (lowerChars query.data)) = false →
      (analyze_query query).intent =
        (if (analyze_query query).entities.any (fun e => e.entity_type == "symptom") then
          MedicalIntent.symptom_based
        else if (analyze_query query).entities.any (fun e => e.entity_type == "procedure") then
          MedicalIntent.procedure_based
        else if (analyze_query query).entities.any (fun e => e.entity_type == "drug") then
          MedicalIntent.drug_based
        else if (analyze_query query).entities.any (fun e => e.entity_type == "condition") then
          MedicalIntent.condition_based
        else MedicalIntent.general)) := by
  constructor
  · intro h
    simp only [analyze_query, classify_intent]
    rw [if_pos h]
  · intro h
    simp only [analyze_query, classify_intent]
    rw [if_neg (by simp [h]), contains_map_entityType, contains_map_entityType,
      contains_map_entityType, contains_map_entityType]

/-- Witness for C3 at a concrete input: the query 911 matches an emergency
pattern and analyze_query classifies it as emergency. -/
theorem c3_intent_priority_witness :
    (analyze_query "911").intent = MedicalIntent.emergency :=
  (c3_intent_priority "911").1 (of_decide_eq_true (by with_unfolding_all rfl))

/-- C4 counterexample: the claim says no term other than the 0.5 base, the 0.3
emergency bonus and the 0.1 entity bonuses contributes to the relevance score,
but for the reachable analysis of the query hypercritical (general intent, no
entities, urgency high) the code returns 0.7 while the claimed formula gives
0.5: the code has an additional +0.2 urgency term. -/
theorem c4_urgency_term_counterexample :
    calculate_medical_relevance { content := some "protocol text" }
        (analyze_query "hypercritical") ≠
      c4_claimed_relevance { content := some "protocol text" }
        (analyze_query "hypercritical") :=
  of_decide_eq_true (by with_unfolding_all rfl)

/-- C4 as amended: the per-hit medical relevance score equals 0.5, plus 0.3 if
the intent is emergency and the hit content contains an emergency keyword,
plus 0.1 per extracted entity whose text occurs case-insensitively in the hit
content, plus 0.2 if the medical context urgency of the analysis is high, with
the final sum clamped from above at 1 — and no other term contributes. -/
theorem c4_relevance_formula (source : SourceDoc) (analysis : QueryAnalysis) :
    calculate_medical_relevance source analysis =
      min ((1/2 : ℚ) +
        (if analysis.intent == .emergency &&
            (["emergency", "urgent", "critical", "immediate"].any
              fun w => pyInS w (sourceContentLower source)) then 3/10 else 0) +
        (1/10) * (analysis.entities.countP
          fun e => pyInS (lowerS e.text) (sourceContentLower source)) +
        (if analysis.medical_context.urgency == some "high" then 2/10 else 0)) 1 :=
  relevance_closed_form source analysis

/-- C9: for every search hit and every query analysis, the relevance score
attached to the medical annotations of the enhanced hit lies within [0, 1]. -/
theorem c9_relevance_clamped (hit : SearchHit) (analysis : QueryAnalysis) :
    0 ≤ (enhance_single_result hit analysis).medical_annotations.relevance_score ∧
      (enhance_single_result hit analysis).medical_annotations.relevance_score ≤ 1 := by
  simp only [enhance_single_result]
  exact relevance_nonneg_le_one _ analysis

/-- C7: query enhancement purely appends: the lower-cased stripped original
query is a prefix of the enhanced query, and the enhanced query is exactly
that prefix followed by, for each synonym-table key occurring as a substring
of the lower-cased stripped query, in table order, a space plus the key's
first two synonyms (once per matching key). -/
theorem c7_enhancement_appends (query : String) :
    stripChars (lowerChars query.data) <+: ((analyze_query query).enhanced_query).data ∧
    ((analyze_query query).enhanced_query).data =
      stripChars (lowerChars query.data) ++
        enhancementSuffix (stripChars (lowerChars query.data)) := by
  have hmain := enhance_query_eq (stripChars (lowerChars query.data))
  constructor
  · simp only [analyze_query]
    rw [hmain]
    exact ⟨_, rfl⟩
  · simp only [analyze_query]
    exact hmain

end ProCheck
